import Mathlib

/-!
Verification development for the professorgemini repository.

The definitions below are a shallow embedding of the slide-change
detection / processing-coordination core and its collaborators:

* `calculateImageSimilarity` embeds `calculateImageSimilarity` from
  `App.tsx` (identical in both App variants of the repository).
* `evaluateGate` embeds the change-gate section of
  `checkForSlideChangeAndExplain` (the `previousCanvas` comparison and
  baseline copy).
* `cleanExplanationText` embeds the regex chain of
  `cleanExplanationText`.
* `explainSlideStream` / `explainSlide` embed
  `src/services/geminiService.ts`, with the external model call
  abstracted as an outcome parameter.
* `tickA` / `tickStream` embed the two variants of
  `checkForSlideChangeAndExplain` as atomic transition functions on an
  explicit application state; asynchronous outcomes (narration result,
  canvas-API exceptions) are inputs of the tick environment, and React
  state setters are modelled as immediate field updates.
* `speakOnEndCalls` embeds `speak`/`cancel` of
  `src/services/ttsService.ts` together with the HTMLMediaElement event
  model the code relies on.
* `HeapModel` gives a reference-level (heap) model of the module state
  of `geminiService.ts`, used for the aliasing behaviour of
  `getConversationHistory`.

Machine floats of the source are idealized as exact rationals; the
`IndexSizeError` that `getImageData` throws on a zero-area canvas is
represented by `Option.none` in the similarity detector.
-/

/-- One RGBA sample of an `ImageData` buffer: (red, green, blue, alpha). -/
abbrev RGBA := Nat × Nat × Nat × Nat

/-- JS `Math.abs(data1[i] - data2[i])` for one colour channel, as a rational. -/
def channelDiff (a b : Nat) : ℚ :=
  (((a : ℤ) - (b : ℤ)).natAbs : ℚ)

/-- The per-pixel `(rDiff + gDiff + bDiff) / 3` term (alpha ignored). -/
def pixelDiff (p q : RGBA) : ℚ :=
  (channelDiff p.1 q.1 + channelDiff p.2.1 q.2.1 + channelDiff p.2.2.1 q.2.2.1) / 3

/-- The `totalDiff` accumulation loop of `calculateImageSimilarity`:
pixels of the two buffers are traversed in lockstep.  (The source indexes
`data2` with `data1`'s indices; the lockstep traversal agrees with it
whenever the two buffers have the same length, which equal declared
dimensions of well-formed canvases guarantee.) -/
def totalDiff (d1 d2 : List RGBA) : ℚ :=
  (List.zip d1 d2).foldl (fun acc pq => acc + pixelDiff pq.1 pq.2) 0

/-- A canvas as the detector sees it: declared dimensions, whether
`getContext('2d')` succeeds on it, and its pixel buffer. -/
structure Canvas where
  width : Nat
  height : Nat
  ctxOk : Bool
  data : List RGBA
deriving DecidableEq

/-- A canvas is well formed when its buffer has exactly `width * height`
pixels, as an `ImageData` of those dimensions does. -/
def Canvas.wellFormed (c : Canvas) : Prop :=
  c.data.length = c.width * c.height

instance (c : Canvas) : Decidable c.wellFormed := by
  unfold Canvas.wellFormed; infer_instance

/-- JS `Math.max` on finite values. -/
def jsMax (a b : ℚ) : ℚ := if a ≤ b then b else a

/-- JS `Math.min` on finite values. -/
def jsMin (a b : ℚ) : ℚ := if a ≤ b then a else b

/-- The function `calculateImageSimilarity` from `App.tsx`.  Returns `some 0` on a
dimension mismatch or a missing 2d context; otherwise
`ctx.getImageData(0, 0, width, height)` is called, which throws an
`IndexSizeError` when either dimension is zero — `none` models that
thrown exception (the function does not return there); otherwise the
result is `1 - avgDiff/255` clamped to [0,1].  A real `ImageData` of a
`w`-by-`h` canvas always has `w*h` pixels, so after the zero-dimension
throw is ruled out `pixelCount` is positive and the division is
ordinary; theorems carry the buffer-length hypothesis rather than rely
on the division-by-zero convention of `ℚ`. -/
def calculateImageSimilarity (canvas1 canvas2 : Canvas) : Option ℚ :=
  if canvas1.width != canvas2.width || canvas1.height != canvas2.height then
    some 0
  else if !canvas1.ctxOk || !canvas2.ctxOk then
    some 0
  else if canvas1.width == 0 || canvas1.height == 0 then
    none
  else
    let pixelCount : ℚ := (canvas1.data.length : ℚ)
    let avgDiff := totalDiff canvas1.data canvas2.data / pixelCount
    let similarity := 1 - avgDiff / 255
    some (jsMax 0 (jsMin 1 similarity))

/-- The JS comparison `similarity > SIMILARITY_THRESHOLD`.  The `none`
(similarity call threw) case defaults to `false`; the gate's dimension
guard makes that case unreachable on every call the coordinator
performs, since it compares canvases of equal, non-zero dimensions. -/
def simGT (sim : Option ℚ) (threshold : ℚ) : Bool :=
  match sim with
  | some s => decide (threshold < s)
  | none => false

/-- Setting `canvas.width`/`canvas.height` resets the canvas to blank
(transparent black) pixels of the new dimensions. -/
def resetCanvas (c : Canvas) (w h : Nat) : Canvas :=
  { c with width := w, height := h, data := List.replicate (w * h) (0, 0, 0, 0) }

/-- The baseline copy of the coordinator: `previousCanvas.width/height`
are set to the thumbnail dimensions (clearing the canvas) and, if a 2d
context is available on `previousCanvas`, `drawImage(currentCanvas,0,0)`
copies the current pixels over. -/
def copyIntoPrevious (current previous : Canvas) : Canvas :=
  let resized := resetCanvas previous current.width current.height
  if resized.ctxOk then { resized with data := current.data } else resized

/-- The change-gate section of `checkForSlideChangeAndExplain`: when a
baseline with non-zero dimensions exists and the similarity exceeds the
threshold, report unchanged and keep the baseline; otherwise report
changed and install the current frame as the new baseline. -/
def evaluateGate (threshold : ℚ) (current previous : Canvas) : Bool × Canvas :=
  if previous.width > 0 && previous.height > 0 then
    if simGT (calculateImageSimilarity current previous) threshold then
      (false, previous)
    else
      (true, copyIntoPrevious current previous)
  else
    (true, copyIntoPrevious current previous)

/-! ### `cleanExplanationText`

The JS function applies four global regex replacements and a trim:
`(\*\*|__)(.*?)\1 → $2`, `(\*|_)(.*?)\1 → $2`, `` `([^`]+)` → $1 ``,
`#+\s → (empty)`, then `.trim()`.  The scanners below reproduce the
regex-engine behaviour: alternatives are tried in order at each
position, `.` does not match a newline, non-greedy groups take the
nearest close, scanning resumes after the match, and an unmatched
opener advances one character.  They use an explicit fuel argument
(any fuel above the input length is enough) so that they reduce by
kernel computation. -/

/-- Search for the closing occurrence of `delim` (the `\1`
backreference); the non-greedy `(.*?)` group cannot cross a newline.
Returns the group's content and the text after the close. -/
def findCloseNoNewline (delim : List Char) : List Char → Option (List Char × List Char)
  | [] => none
  | c :: cs =>
    if delim.isPrefixOf (c :: cs) then
      some ([], (c :: cs).drop delim.length)
    else if c = '\n' then
      none
    else
      match findCloseNoNewline delim cs with
      | some (inner, rest) => some (c :: inner, rest)
      | none => none

/-- Try each alternative delimiter in order at the current position. -/
def tryOpen (delims : List (List Char)) (cs : List Char) : Option (List Char × List Char) :=
  match delims with
  | [] => none
  | d :: ds =>
    if d.isPrefixOf cs then
      match findCloseNoNewline d (cs.drop d.length) with
      | some r => some r
      | none => tryOpen ds cs
    else tryOpen ds cs

/-- One global paired-delimiter replacement pass (`$2` keeps the group,
which is not rescanned, matching `String.replace` with a `/g` regex). -/
def stripPairedRun (delims : List (List Char)) : Nat → List Char → List Char
  | 0, cs => cs
  | _ + 1, [] => []
  | fuel + 1, c :: cs =>
    match tryOpen delims (c :: cs) with
    | some (inner, rest) => inner ++ stripPairedRun delims fuel rest
    | none => c :: stripPairedRun delims fuel cs

/-- The backtick character. -/
def backtickChar : Char := Char.ofNat 96

/-- Find the next backtick; the regex group is the text before it. -/
def scanCode : List Char → Option (List Char × List Char)
  | [] => none
  | c :: cs =>
    if c = backtickChar then some ([], cs)
    else
      match scanCode cs with
      | some (inner, rest) => some (c :: inner, rest)
      | none => none

/-- The global `` `([^`]+)` `` replacement pass (the group must be
non-empty). -/
def stripCodeRun : Nat → List Char → List Char
  | 0, cs => cs
  | _ + 1, [] => []
  | fuel + 1, c :: cs =>
    if c = backtickChar then
      match scanCode cs with
      | some (inner, rest) =>
        if inner.isEmpty then c :: stripCodeRun fuel cs
        else inner ++ stripCodeRun fuel rest
      | none => c :: stripCodeRun fuel cs
    else c :: stripCodeRun fuel cs

/-- ASCII approximation of the regex class `\s`. -/
def isJsWhitespace (c : Char) : Bool :=
  c = ' ' || c = '\t' || c = '\n' || c = '\r' || c = '\x0b' || c = '\x0c'

/-- JS `String.prototype.trim` (ASCII whitespace), as a structural
list computation so that it reduces by kernel computation
(`String.trim` of core Lean is extensionally the same on such
strings but is not kernel-reducible). -/
def jsTrim (s : String) : String :=
  String.mk (((s.toList.dropWhile (fun c => isJsWhitespace c)).reverse.dropWhile
    (fun c => isJsWhitespace c)).reverse)

/-- The global `#+\s` removal pass: a maximal run of `#` must be
followed by a whitespace character, which is removed with it; otherwise
the engine advances one character. -/
def stripHeadingRun : Nat → List Char → List Char
  | 0, cs => cs
  | _ + 1, [] => []
  | fuel + 1, c :: cs =>
    if c = '#' then
      let hashes := cs.takeWhile (fun x => x = '#')
      match cs.drop hashes.length with
      | [] => c :: stripHeadingRun fuel cs
      | r :: rs =>
        if isJsWhitespace r then stripHeadingRun fuel rs
        else c :: stripHeadingRun fuel cs
    else c :: stripHeadingRun fuel cs

def boldDelims : List (List Char) := [['*', '*'], ['_', '_']]

def italicDelims : List (List Char) := [['*'], ['_']]

/-- The function `cleanExplanationText` from `App.tsx` (both variants): strips bold,
italic, code-span and heading markers, then trims. -/
def cleanExplanationText (text : String) : String :=
  let cs0 := text.toList
  let cs1 := stripPairedRun boldDelims (cs0.length + 1) cs0
  let cs2 := stripPairedRun italicDelims (cs1.length + 1) cs1
  let cs3 := stripCodeRun (cs2.length + 1) cs2
  let cs4 := stripHeadingRun (cs3.length + 1) cs3
  jsTrim (String.mk cs4)

/-! ### `src/services/geminiService.ts` -/

/-- The two UI languages. -/
inductive Lang
  | english
  | indonesian
deriving DecidableEq

/-- One `ConversationHistory` entry (`Date` timestamps are numbers here). -/
structure HistoryEntry where
  slideNumber : Nat
  explanation : String
  timestamp : Nat
deriving DecidableEq

/-- The module-level mutable state of `geminiService.ts`. -/
structure GeminiState where
  conversationHistory : List HistoryEntry
  currentSlideNumber : Nat
deriving DecidableEq

/-- The function `addToHistory`: push an entry. -/
def addToHistory (g : GeminiState) (slideNumber : Nat) (explanation : String)
    (now : Nat) : GeminiState :=
  { g with conversationHistory :=
      g.conversationHistory ++ [⟨slideNumber, explanation, now⟩] }

/-- The localized error strings produced by the catch blocks of
`explainSlideStream` and `explainSlide` (`none` models a thrown value
that is not an `Error`). -/
def narrationErrorMessage (lang : Lang) (err : Option String) : String :=
  match err, lang with
  | some m, .english => "An error occurred while analyzing the slide: " ++ m
  | some m, .indonesian => "Terjadi kesalahan saat menganalisis slide: " ++ m
  | none, .english => "An unknown error occurred while analyzing the slide."
  | none, .indonesian => "Terjadi kesalahan yang tidak diketahui saat menganalisis slide."

/-- Outcome of the streaming model call: either the stream completes
after yielding the given chunks, or it throws after yielding them
(each chunk's `text` field may be absent, which `chunk.text || ''`
turns into the empty string). -/
inductive StreamOutcome
  | success (chunks : List (Option String))
  | failure (chunks : List (Option String)) (err : Option String)
deriving DecidableEq

/-- The `for await` accumulation loop of `explainSlideStream`: starting
from the accumulator `acc`, returns the final `fullText` and the list
of chunk texts passed to `onChunk`, in delivery order. -/
def streamLoop : List (Option String) → String → String × List String
  | [], acc => (acc, [])
  | c :: cs, acc =>
    let t := c.getD ""
    let r := streamLoop cs (acc ++ t)
    (r.1, t :: r.2)

/-- JS `slideNumber || currentSlideNumber` (`0` is falsy). -/
def jsOrSlideNumber (arg : Option Nat) (current : Nat) : Nat :=
  match arg with
  | some n => if n = 0 then current else n
  | none => current

/-- JS truthiness of the optional `slideNumber` argument. -/
def jsTruthyNat (arg : Option Nat) : Bool :=
  match arg with
  | some n => n != 0
  | none => false

/-- Result of a run of `explainSlideStream`: the updated module state,
the returned string, and the chunks delivered to `onChunk` in order. -/
structure StreamResult where
  state : GeminiState
  returned : String
  emitted : List String
deriving DecidableEq

/-- The function `explainSlideStream` from `geminiService.ts`.  The external model
call is abstracted by `outcome`; everything else follows the source:
the slide number defaults to `currentSlideNumber` (which is then
incremented), on success the accumulated text is appended to the
conversation history when non-blank, and on failure the localized
error message is delivered as a final chunk and returned — the
function never throws. -/
def explainSlideStream (g : GeminiState) (lang : Lang) (slideNumber : Option Nat)
    (outcome : StreamOutcome) (now : Nat) : StreamResult :=
  let slideNum := jsOrSlideNumber slideNumber g.currentSlideNumber
  let g1 := if jsTruthyNat slideNumber then g
            else { g with currentSlideNumber := g.currentSlideNumber + 1 }
  match outcome with
  | .success chunks =>
    let r := streamLoop chunks ""
    let g2 := if jsTrim r.1 = "" then g1 else addToHistory g1 slideNum r.1 now
    ⟨g2, r.1, r.2⟩
  | .failure chunks err =>
    let r := streamLoop chunks ""
    let msg := narrationErrorMessage lang err
    ⟨g1, msg, r.2 ++ [msg]⟩

/-- The fallback string of `explainSlide` when the response has no text. -/
def noResponseText : String := "No response received from the AI."

/-- The function `explainSlide` from `geminiService.ts`.  Here `outcome` abstracts the
model call: `.ok t` is a response whose `text` field is `t` (possibly
absent), `.error e` a thrown value. -/
def explainSlide (g : GeminiState) (lang : Lang) (slideNumber : Option Nat)
    (outcome : Except (Option String) (Option String)) (now : Nat) :
    GeminiState × String :=
  let slideNum := jsOrSlideNumber slideNumber g.currentSlideNumber
  let g1 := if jsTruthyNat slideNumber then g
            else { g with currentSlideNumber := g.currentSlideNumber + 1 }
  match outcome with
  | .ok respText =>
    let fullText := respText.getD noResponseText
    let g2 := if jsTrim fullText ≠ "" ∧ fullText ≠ noResponseText
              then addToHistory g1 slideNum fullText now else g1
    (g2, fullText)
  | .error err => (g1, narrationErrorMessage lang err)

/-! ### The coordinator tick (`checkForSlideChangeAndExplain`) -/

/-- One record of the `explanations` state (`types.ts` `Explanation`;
the UUID is a number here).  The non-streaming App variant creates its
records without the two flags, i.e. with both absent/false. -/
structure ExplanationRec where
  id : Nat
  text : String
  timestamp : Nat
  language : Lang
  isStreaming : Bool
  isComplete : Bool
deriving DecidableEq

/-- The tuning constants of an App variant. -/
structure AppConfig where
  similarityThreshold : ℚ
  minProcessingInterval : Int
deriving DecidableEq

/-- Constants of `App.tsx`, non-streaming variant: threshold 0.97, interval 5000 ms. -/
def cfgA : AppConfig := ⟨97 / 100, 5000⟩

/-- Constants of `App.tsx`, streaming variant: threshold 0.978, interval 1000 ms. -/
def cfgB : AppConfig := ⟨978 / 1000, 1000⟩

/-- How an invocation of the tick exited. -/
inductive ExitPath
  | preFail
  | intervalFail
  | noCurrentCtx
  | simSkip
  | noFullCtx
  | caught
  | done
deriving DecidableEq

/-- Paths on which the tick accepted the frame as a new slide
(`lastProcessedTimeRef` was updated). -/
def isAcceptedPath : ExitPath → Bool
  | .noFullCtx | .caught | .done => true
  | _ => false

/-- The component state of the non-streaming App (React state and refs
scoped to the component). -/
structure AppStateA where
  processingLock : Bool
  isProcessing : Bool
  isSpeaking : Bool
  isMuted : Bool
  language : Lang
  lastProcessedTime : Int
  previousCanvas : Canvas
  explanations : List ExplanationRec
  error : Option String
deriving DecidableEq

/-- Inputs of one tick of the non-streaming App: the wall clock, the
video element, context availability of the canvases involved, the
downsampled frame pixels, the outcome of the asynchronous pipeline
(`pipelineThrows` models a canvas-API exception after acceptance,
`narrationText` the string `explainSlide` resolves with — that function
catches internally and never rejects), and fresh identifiers. -/
structure TickEnvA where
  now : Int
  videoPresent : Bool
  videoWidth : Nat
  videoHeight : Nat
  chatPresent : Bool
  currentCtxOk : Bool
  fullCtxOk : Bool
  frame : List RGBA
  pipelineThrows : Option String
  narrationText : String
  newId : Nat
  timestamp : Nat
deriving DecidableEq

/-- The thumbnail `currentCanvas` as it stands after
`drawImage(video, 0, 0, thumbWidth, thumbHeight)`: width 320, height
`(videoHeight / videoWidth) * 320` (integral canvas dimensions), the
current frame pixels. -/
def currentCanvasOf (videoWidth videoHeight : Nat) (ctxOk : Bool)
    (frame : List RGBA) : Canvas :=
  { width := 320, height := videoHeight * 320 / videoWidth,
    ctxOk := ctxOk, data := frame }

/-- The function `checkForSlideChangeAndExplain` of the non-streaming App as an
atomic transition.  The returned `ExitPath` names the exit taken.
Launching `tts.speak` (not awaited by the source) is modelled by
setting `isSpeaking`; the later `onEnd` callback is the separate
transition `speechOnEnd`. -/
def tickA (cfg : AppConfig) (env : TickEnvA) (s : AppStateA) : AppStateA × ExitPath :=
  if s.processingLock || s.isProcessing || s.isSpeaking || !env.videoPresent ||
      env.videoHeight == 0 || !env.chatPresent then
    (s, ExitPath.preFail)
  else if env.now - s.lastProcessedTime < cfg.minProcessingInterval then
    (s, ExitPath.intervalFail)
  else
    let s1 := { s with processingLock := true }
    if !env.currentCtxOk then
      (s1, ExitPath.noCurrentCtx)
    else
      let gate := evaluateGate cfg.similarityThreshold
        (currentCanvasOf env.videoWidth env.videoHeight env.currentCtxOk env.frame)
        s.previousCanvas
      if !gate.1 then
        ({ s1 with processingLock := false }, ExitPath.simSkip)
      else
        let s2 := { s1 with
          previousCanvas := gate.2, lastProcessedTime := env.now,
          isProcessing := true, error := none }
        if !env.fullCtxOk then
          (s2, ExitPath.noFullCtx)
        else
          match env.pipelineThrows with
          | some msg =>
            ({ s2 with
               error := some ("Failed to process slide: " ++ msg),
               isProcessing := false, processingLock := false }, ExitPath.caught)
          | none =>
            let explanationText := cleanExplanationText env.narrationText
            let newRec : ExplanationRec :=
              { id := env.newId, text := explanationText,
                timestamp := env.timestamp, language := s2.language,
                isStreaming := false, isComplete := false }
            let s3 := { s2 with explanations := s2.explanations ++ [newRec] }
            let s4 := if s3.isMuted then s3 else { s3 with isSpeaking := true }
            ({ s4 with isProcessing := false, processingLock := false }, ExitPath.done)

/-- The `onEnd` callback handed to `tts.speak` by either App variant. -/
def speechOnEnd (s : AppStateA) : AppStateA :=
  { s with isSpeaking := false }

/-- The wall-clock times of the ticks of a run that accepted a slide
change (the ticks of a session, executed in order). -/
def acceptedTimes (cfg : AppConfig) : List TickEnvA → AppStateA → List Int
  | [], _ => []
  | e :: es, s =>
    if isAcceptedPath (tickA cfg e s).2 then
      e.now :: acceptedTimes cfg es (tickA cfg e s).1
    else
      acceptedTimes cfg es (tickA cfg e s).1

/-! ### The streaming App variant -/

/-- The callback `handleChunk` of the streaming App applied to one chunk: append the
chunk text to the record with the streaming id. -/
def appendChunkTo (l : List ExplanationRec) (i : Nat) (chunk : String) :
    List ExplanationRec :=
  l.map (fun e => if e.id = i then { e with text := e.text ++ chunk } else e)

/-- The callback `handleChunk` applied to every delivered chunk in order. -/
def applyChunks (l : List ExplanationRec) (i : Nat) (chunks : List String) :
    List ExplanationRec :=
  chunks.foldl (fun acc c => appendChunkTo acc i c) l

/-- The sealing update after `explainSlideStream` returns:
`isStreaming := false`, `isComplete := true` on the streaming record. -/
def sealRecord (l : List ExplanationRec) (i : Nat) : List ExplanationRec :=
  l.map (fun e =>
    if e.id = i then { e with isStreaming := false, isComplete := true } else e)

/-- The component state of the streaming App. -/
structure AppStateB where
  processingLock : Bool
  isProcessing : Bool
  isSpeaking : Bool
  isMuted : Bool
  language : Lang
  lastProcessedTime : Int
  previousCanvas : Canvas
  explanations : List ExplanationRec
  streamingExplanationId : Option Nat
  error : Option String
  gemini : GeminiState
deriving DecidableEq

/-- Inputs of one tick of the streaming App.  `streamOutcome` abstracts
the model stream consumed by `explainSlideStream` (that function
catches internally and never rejects); `pipelineThrows` models a
canvas-API exception between acceptance and the narration call. -/
structure TickEnvB where
  now : Int
  videoPresent : Bool
  videoWidth : Nat
  videoHeight : Nat
  currentCtxOk : Bool
  fullCtxOk : Bool
  frame : List RGBA
  pipelineThrows : Option String
  streamOutcome : StreamOutcome
  newId : Nat
  timestamp : Nat
deriving DecidableEq

/-- The function `checkForSlideChangeAndExplain` of the streaming App as an atomic
transition (same modelling conventions as `tickA`). -/
def tickStream (cfg : AppConfig) (env : TickEnvB) (s : AppStateB) :
    AppStateB × ExitPath :=
  if s.processingLock || s.isProcessing || s.isSpeaking || !env.videoPresent ||
      env.videoHeight == 0 then
    (s, ExitPath.preFail)
  else if env.now - s.lastProcessedTime < cfg.minProcessingInterval then
    (s, ExitPath.intervalFail)
  else
    let s1 := { s with processingLock := true }
    if !env.currentCtxOk then
      (s1, ExitPath.noCurrentCtx)
    else
      let gate := evaluateGate cfg.similarityThreshold
        (currentCanvasOf env.videoWidth env.videoHeight env.currentCtxOk env.frame)
        s.previousCanvas
      if !gate.1 then
        ({ s1 with processingLock := false }, ExitPath.simSkip)
      else
        let s2 := { s1 with
          previousCanvas := gate.2, lastProcessedTime := env.now,
          isProcessing := true, error := none }
        if !env.fullCtxOk then
          (s2, ExitPath.noFullCtx)
        else
          match env.pipelineThrows with
          | some msg =>
            ({ s2 with
               error := some ("Failed to process slide: " ++ msg),
               isProcessing := false, streamingExplanationId := none,
               processingLock := false }, ExitPath.caught)
          | none =>
            let rec0 : ExplanationRec :=
              { id := env.newId, text := "", timestamp := env.timestamp,
                language := s2.language, isStreaming := true, isComplete := false }
            let s3 := { s2 with
              explanations := s2.explanations ++ [rec0],
              streamingExplanationId := some env.newId, isProcessing := false }
            let r := explainSlideStream s3.gemini s3.language none
              env.streamOutcome env.timestamp
            let s4 := { s3 with
              explanations := applyChunks s3.explanations env.newId r.emitted,
              gemini := r.state }
            let s5 := { s4 with
              explanations := sealRecord s4.explanations env.newId,
              streamingExplanationId := none }
            let s6 := if s5.isMuted then s5 else { s5 with isSpeaking := true }
            ({ s6 with processingLock := false }, ExitPath.done)

/-! ### `src/services/ttsService.ts`

`speak` is modelled as the pair of a synchronous part (`speakStart`:
everything up to and including `audio.play()`) and the later fate of a
started playback.  The handlers the source installs on the audio
element are recorded explicitly; which handler a fate triggers follows
the HTMLMediaElement event model the code runs on: a finished playback
fires `ended`, a device failure fires `error`, and `cancel()` calls
`pause()`, which fires neither `ended` nor `error`. -/

/-- An entry object in the store (the fields a caller can reach). -/
structure EntryObj where
  slideNumber : Nat
  explanation : String
deriving DecidableEq

/-- The heap: the entry store and the module-level
`conversationHistory` array of references. -/
structure HeapModel where
  entries : List EntryObj
  historyRefs : List Nat
deriving DecidableEq

/-- The function `getConversationHistory`: the spread `[...conversationHistory]` builds a fresh
array containing the same references. -/
def getConversationHistoryCopy (h : HeapModel) : List Nat :=
  h.historyRefs

/-- The string `[Previous Slide N]: explanation` for the entry a reference
designates. -/
def formatHistoryRef (h : HeapModel) (r : Nat) : String :=
  let e := h.entries.getD r ⟨0, ""⟩
  "[Previous Slide " ++ toString e.slideNumber ++ "]: " ++ e.explanation

/-- The function `getConversationContext`, observing the internal history through
the heap. -/
def getConversationContextHeap (h : HeapModel) : String :=
  if h.historyRefs.isEmpty then ""
  else String.intercalate "\n\n----------\n\n" (h.historyRefs.map (formatHistoryRef h))

/-- Mutations a caller can apply to the array `getConversationHistory`
returned: plain array mutations (replace, push, pop an element) and a
field write through an element (`arr[i].explanation = text`), which
goes through the shared reference.  (An out-of-range field write, a
TypeError in JS, is a no-op here.) -/
inductive CallerMutation
  | setElem (i : Nat) (r : Nat)
  | push (r : Nat)
  | pop
  | setExplanation (i : Nat) (text : String)
deriving DecidableEq

/-- Apply one caller mutation to the pair (heap, caller's array). -/
def applyMutation : HeapModel × List Nat → CallerMutation → HeapModel × List Nat
  | (h, arr), .setElem i r => (h, arr.set i r)
  | (h, arr), .push r => (h, arr ++ [r])
  | (h, arr), .pop => (h, arr.dropLast)
  | (h, arr), .setExplanation i text =>
    match arr.get? i with
    | some r =>
      let updated := { h.entries.getD r ⟨0, ""⟩ with explanation := text }
      ({ h with entries := h.entries.set r updated }, arr)
    | none => (h, arr)

/-- Apply a sequence of caller mutations in order. -/
def applyMutations (st : HeapModel × List Nat) (muts : List CallerMutation) :
    HeapModel × List Nat :=
  muts.foldl applyMutation st

/-- A mutation that touches only the array itself, not an entry object. -/
def isArrayLevel : CallerMutation → Bool
  | .setExplanation _ _ => false
  | _ => true

/-! ## Concrete fixtures used by witnesses and counterexamples -/

/-- A 0-by-0 canvas with an available 2d context and an empty buffer
(the state of a freshly created canvas whose dimensions were set to
zero). -/
def emptyCanvas : Canvas := ⟨0, 0, true, []⟩

/-- A 1-by-1 all-black opaque canvas. -/
def blackCanvas : Canvas := ⟨1, 1, true, [(0, 0, 0, 255)]⟩

/-- A 1-by-1 all-white opaque canvas. -/
def whiteCanvas : Canvas := ⟨1, 1, true, [(255, 255, 255, 255)]⟩

/-! ## Helper lemmas -/

theorem channelDiff_self (a : Nat) : channelDiff a a = 0 := by
  simp [channelDiff]

theorem pixelDiff_self (p : RGBA) : pixelDiff p p = 0 := by
  simp [pixelDiff, channelDiff_self]

theorem totalDiff_self_aux (l : List RGBA) (acc : ℚ) :
    (List.zip l l).foldl (fun acc pq => acc + pixelDiff pq.1 pq.2) acc = acc := by
  induction l generalizing acc with
  | nil => rfl
  | cons p l ih => simp [List.zip_cons_cons, pixelDiff_self, ih]

/-- Comparing a buffer with itself accumulates a total difference of 0. -/
theorem totalDiff_self (l : List RGBA) : totalDiff l l = 0 := by
  unfold totalDiff; exact totalDiff_self_aux l 0

theorem jsMax_zero_nonneg (y : ℚ) : 0 ≤ jsMax 0 y := by
  unfold jsMax; split <;> simp_all

theorem jsMax_zero_jsMin_one_le (x : ℚ) : jsMax 0 (jsMin 1 x) ≤ 1 := by
  unfold jsMax jsMin; split_ifs <;> linarith


/-! ## C4 — similarity detector contract -/

/-- Claim C4, counterexample: the claim asserts that for every pair of
identical equal-sized buffers the result is exactly 1.0 and that the
result is always in [0,1]; but on a pair of identical 0-by-0 buffers
`ctx.getImageData(0, 0, 0, 0)` throws an `IndexSizeError`
(modelled as `none`), so the function does not return 1.0 there —
it does not return a value in [0,1] at all. -/
theorem calculateImageSimilarity_empty_not_one :
    calculateImageSimilarity emptyCanvas emptyCanvas ≠ some 1 := by
  decide

/-- Claim C4 (amended): for buffers of differing declared dimensions the
result is 0; for equal non-zero dimensions and available contexts the
result is `1 - avgDiff/255` clamped to [0,1] (hence always in [0,1]
there), and a non-empty buffer compared with itself yields exactly 1;
on equal-sized zero-area buffers the function throws (from
`getImageData`) instead of returning. -/
theorem calculateImageSimilarity_contract (c1 c2 : Canvas) :
    ((c1.width ≠ c2.width ∨ c1.height ≠ c2.height) →
      calculateImageSimilarity c1 c2 = some 0)
    ∧ (c1.width = c2.width → c1.height = c2.height →
       c1.ctxOk = true → c2.ctxOk = true → c1.width ≠ 0 → c1.height ≠ 0 →
      calculateImageSimilarity c1 c2 =
        some (jsMax 0 (jsMin 1 (1 - totalDiff c1.data c2.data / (c1.data.length : ℚ) / 255)))
      ∧ 0 ≤ jsMax 0 (jsMin 1 (1 - totalDiff c1.data c2.data / (c1.data.length : ℚ) / 255))
      ∧ jsMax 0 (jsMin 1 (1 - totalDiff c1.data c2.data / (c1.data.length : ℚ) / 255)) ≤ 1)
    ∧ (c1.ctxOk = true → c1.width ≠ 0 → c1.height ≠ 0 → c1.data.length ≠ 0 →
      calculateImageSimilarity c1 c1 = some 1)
    ∧ (c1.width = c2.width → c1.height = c2.height →
       c1.ctxOk = true → c2.ctxOk = true → (c1.width = 0 ∨ c1.height = 0) →
      calculateImageSimilarity c1 c2 = none) := by
  refine ⟨?_, ?_, ?_, ?_⟩
  · intro h
    rcases h with h | h <;> simp [calculateImageSimilarity, h]
  · intro hw hh hc1 hc2 hw0 hh0
    refine ⟨?_, jsMax_zero_nonneg _, jsMax_zero_jsMin_one_le _⟩
    simp [calculateImageSimilarity, hw, hh, hc1, hc2, hw0, hh0]
    omega
  · intro hc hw0 hh0 hn
    simp [calculateImageSimilarity, hc, hw0, hh0, totalDiff_self, jsMin, jsMax]
  · intro hw hh hc1 hc2 h0
    rcases h0 with h0 | h0 <;>
      simp [calculateImageSimilarity, hw, hh, hc1, hc2, h0] <;>
      omega

/-- Witness for C4 (amended), at a concrete 1-by-1 buffer pair. -/
theorem calculateImageSimilarity_contract_witness :
    calculateImageSimilarity blackCanvas blackCanvas = some 1 :=
  (calculateImageSimilarity_contract blackCanvas blackCanvas).2.2.1 rfl
    (by decide) (by decide) (by decide)

/-! ## C3 — change-gate behaviour -/

/-- Claim C3: with an existing baseline (non-zero dimensions), a
similarity strictly above the threshold reports "unchanged" and leaves
the baseline untouched; a similarity at or below the threshold reports
"changed" and installs the current frame as the baseline (given the
baseline canvas has a 2d context to draw into); and re-evaluating the
same frame against the freshly installed baseline then reports
"unchanged", because a frame is pixel-identical to its own copy. -/
theorem evaluateGate_contract (θ : ℚ) (current previous : Canvas)
    (hw : 0 < previous.width) (hh : 0 < previous.height) :
    (∀ sv, calculateImageSimilarity current previous = some sv → θ < sv →
      evaluateGate θ current previous = (false, previous))
    ∧ (∀ sv, calculateImageSimilarity current previous = some sv → sv ≤ θ →
      (evaluateGate θ current previous).1 = true
      ∧ (previous.ctxOk = true →
          (evaluateGate θ current previous).2 =
            ⟨current.width, current.height, true, current.data⟩))
    ∧ (θ < 1 → previous.ctxOk = true → current.ctxOk = true →
       0 < current.width → 0 < current.height → 0 < current.data.length →
       ∀ sv, calculateImageSimilarity current previous = some sv → sv ≤ θ →
       evaluateGate θ current (evaluateGate θ current previous).2 =
         (false, (evaluateGate θ current previous).2)) := by
  refine ⟨?_, ?_, ?_⟩
  · intro sv hsim hgt
    simp [evaluateGate, hw, hh, simGT, hsim, hgt]
  · intro sv hsim hle
    have hngt : ¬ θ < sv := not_lt.mpr hle
    constructor
    · simp [evaluateGate, hw, hh, simGT, hsim, hngt]
    · intro hctx
      simp [evaluateGate, hw, hh, simGT, hsim, hngt, copyIntoPrevious, resetCanvas, hctx]
  · intro hθ hctxP hctxC hcw hch hlen sv hsim hle
    have hngt : ¬ θ < sv := not_lt.mpr hle
    have hbase : (evaluateGate θ current previous).2 =
        ⟨current.width, current.height, true, current.data⟩ := by
      simp [evaluateGate, hw, hh, simGT, hsim, hngt, copyIntoPrevious, resetCanvas, hctxP]
    rw [hbase]
    have hne : current.data ≠ [] := List.ne_nil_of_length_pos hlen
    have hw0 : current.width ≠ 0 := Nat.pos_iff_ne_zero.mp hcw
    have hh0 : current.height ≠ 0 := Nat.pos_iff_ne_zero.mp hch
    have hsim1 : calculateImageSimilarity current
        ⟨current.width, current.height, true, current.data⟩ = some 1 := by
      simp [calculateImageSimilarity, hctxC, hw0, hh0, hne, totalDiff_self, jsMin, jsMax]
    simp [evaluateGate, hcw, hch, simGT, hsim1, hθ]

unseal Rat.mul Rat.add Rat.sub Rat.inv in
/-- Witness for C3, with threshold 0.97 and concrete 1-by-1 frames:
an all-white frame against an all-black baseline is accepted, and the
same frame against the installed copy is then rejected. -/
theorem evaluateGate_contract_witness :
    evaluateGate (97 / 100) whiteCanvas
        (evaluateGate (97 / 100) whiteCanvas blackCanvas).2 =
      (false, (evaluateGate (97 / 100) whiteCanvas blackCanvas).2) :=
  (evaluateGate_contract (97 / 100) whiteCanvas blackCanvas
      (by decide) (by decide)).2.2 (by norm_num) rfl rfl
    (by decide) (by decide) (by decide) 0 (by decide) (by norm_num)

/-! ## C9 — streamed chunks concatenate to the returned text -/

/-- Concatenation of a chunk list in delivery order. -/
def concatChunks (l : List String) : String :=
  l.foldr (fun a b => a ++ b) ""

theorem streamLoop_fst (cs : List (Option String)) :
    ∀ acc, (streamLoop cs acc).1 = acc ++ concatChunks (streamLoop cs acc).2 := by
  induction cs with
  | nil => intro acc; simp [streamLoop, concatChunks, String.append_empty]
  | cons c cs ih =>
    intro acc
    simp only [streamLoop, concatChunks, List.foldr]
    rw [ih (acc ++ c.getD "")]
    rw [String.append_assoc]
    rfl

/-- Claim C9: a successful (non-throwing) run of `explainSlideStream`
returns exactly the concatenation, in delivery order, of the chunks it
passed to `onChunk`. -/
theorem explainSlideStream_returns_emitted_concat (g : GeminiState) (lang : Lang)
    (slideNumber : Option Nat) (chunks : List (Option String)) (now : Nat) :
    (explainSlideStream g lang slideNumber (StreamOutcome.success chunks) now).returned =
      concatChunks
        (explainSlideStream g lang slideNumber (StreamOutcome.success chunks) now).emitted := by
  show (streamLoop chunks "").1 = concatChunks (streamLoop chunks "").2
  rw [streamLoop_fst chunks ""]
  exact (String.empty_append _).symm ▸ rfl

/-! ## C8 — conversation-history append on success -/

/-- Claim C8, counterexample: a successful streaming narration call
whose stream yields no chunks completes with text `""`, yet nothing is
appended to the conversation history (the source appends only when
`fullText.trim()` is truthy), while the claim requires the resulting
text to be appended.  Starting from an empty history, the history is
still empty, not the one-entry list the claim demands. -/
theorem explainSlideStream_empty_success_not_appended :
    (explainSlideStream ⟨[], 1⟩ Lang.english none (StreamOutcome.success []) 0).returned = ""
    ∧ (explainSlideStream ⟨[], 1⟩ Lang.english none
        (StreamOutcome.success []) 0).state.conversationHistory = []
    ∧ ([] : List HistoryEntry) ≠ [⟨1, "", 0⟩] := by
  refine ⟨rfl, rfl, by decide⟩

/-- Claim C8 (amended): a successful narration call appends its text to
the conversation history, keyed by the slide number used for the call,
exactly when that text is non-blank (and, for the single-shot variant,
is not the no-response placeholder); otherwise the history is left
unchanged. -/
theorem narration_history_append (g : GeminiState) (lang : Lang)
    (slideNumber : Option Nat) (now : Nat) :
    (∀ chunks,
      (explainSlideStream g lang slideNumber (StreamOutcome.success chunks) now).state.conversationHistory =
        (if jsTrim (streamLoop chunks "").1 = "" then g.conversationHistory
         else g.conversationHistory ++
           [⟨jsOrSlideNumber slideNumber g.currentSlideNumber, (streamLoop chunks "").1, now⟩]))
    ∧ (∀ respText,
      (explainSlide g lang slideNumber (Except.ok respText) now).1.conversationHistory =
        (if jsTrim (respText.getD noResponseText) ≠ ""
            ∧ respText.getD noResponseText ≠ noResponseText
         then g.conversationHistory ++
           [⟨jsOrSlideNumber slideNumber g.currentSlideNumber, respText.getD noResponseText, now⟩]
         else g.conversationHistory)) := by
  constructor
  · intro chunks
    simp only [explainSlideStream]
    split
    · split <;> simp_all [addToHistory]
    · split <;> simp_all [addToHistory]
  · intro respText
    simp only [explainSlide]
    split
    · split <;> simp_all [addToHistory]
    · split <;> simp_all [addToHistory]

/-! ## C6 — `onEnd` invocations of `speak` -/

/-- A one-entry heap used by the C10 counterexample. -/
def heap0 : HeapModel := ⟨[⟨1, "original"⟩], [0]⟩

/-- Claim C10, counterexample: the claim asserts that no sequence of
mutations applied to the array returned by `getConversationHistory`
changes the internal conversation history.  The spread `[...h]` copies
only the array: the entry objects are shared, so writing
`arr[0].explanation` through the returned array changes what
`getConversationContext` observes. -/
theorem getConversationHistoryCopy_shallow :
    getConversationContextHeap
        (applyMutations (heap0, getConversationHistoryCopy heap0)
          [CallerMutation.setExplanation 0 "hacked"]).1
      ≠ getConversationContextHeap heap0 := by
  decide

/-- Claim C10 (amended): the returned array itself is fresh — any
sequence of array-level mutations (replacing, pushing or popping
elements) leaves the internal history, and hence
`getConversationContext` and later `getConversationHistory` calls,
unchanged; only field writes through a shared entry object can change
the internal history. -/
theorem getConversationHistoryCopy_array_mutations_frame (h : HeapModel)
    (muts : List CallerMutation)
    (hm : ∀ m ∈ muts, isArrayLevel m = true) :
    (applyMutations (h, getConversationHistoryCopy h) muts).1 = h
    ∧ getConversationContextHeap
        (applyMutations (h, getConversationHistoryCopy h) muts).1 =
      getConversationContextHeap h := by
  have main : ∀ (muts : List CallerMutation) (arr : List Nat),
      (∀ m ∈ muts, isArrayLevel m = true) →
      (applyMutations (h, arr) muts).1 = h := by
    intro muts
    induction muts with
    | nil => intro arr _; rfl
    | cons m ms ih =>
      intro arr hall
      have hm1 : isArrayLevel m = true := hall m (List.mem_cons_self m ms)
      have hrest : ∀ x ∈ ms, isArrayLevel x = true :=
        fun x hx => hall x (List.mem_cons_of_mem m hx)
      cases m with
      | setElem i r => exact ih (arr.set i r) hrest
      | push r => exact ih (arr ++ [r]) hrest
      | pop => exact ih arr.dropLast hrest
      | setExplanation i text => simp [isArrayLevel] at hm1
  have h1 := main muts (getConversationHistoryCopy h) hm
  exact ⟨h1, by rw [h1]⟩

/-- Witness for C10 (amended): a concrete push-then-pop sequence on the
returned array leaves the heap untouched. -/
theorem getConversationHistoryCopy_array_mutations_frame_witness :
    (applyMutations (heap0, getConversationHistoryCopy heap0)
      [CallerMutation.push 0, CallerMutation.pop]).1 = heap0 :=
  (getConversationHistoryCopy_array_mutations_frame heap0
    [CallerMutation.push 0, CallerMutation.pop] (by decide)).1

/-! ## Tick fixtures -/

/-- A fresh session state of the non-streaming App: nothing in flight,
unmuted, English, epoch last-processed time, no baseline yet. -/
def sA0 : AppStateA :=
  { processingLock := false, isProcessing := false, isSpeaking := false,
    isMuted := false, language := Lang.english, lastProcessedTime := 0,
    previousCanvas := emptyCanvas, explanations := [], error := none }

/-- A tick environment whose preconditions all pass but where
`currentCanvas.getContext('2d')` returns null. -/
def envLockLeak : TickEnvA :=
  { now := 10000, videoPresent := true, videoWidth := 640, videoHeight := 360,
    chatPresent := true, currentCtxOk := false, fullCtxOk := true, frame := [],
    pipelineThrows := none, narrationText := "", newId := 1, timestamp := 0 }

/-- A tick environment for a fully successful first-frame run. -/
def envAccept : TickEnvA :=
  { now := 10000, videoPresent := true, videoWidth := 640, videoHeight := 360,
    chatPresent := true, currentCtxOk := true, fullCtxOk := true,
    frame := [(0, 0, 0, 255)], pipelineThrows := none,
    narrationText := "Hello", newId := 2, timestamp := 1 }

/-! ## C1 — the lock is not released on the context-unavailable returns -/

/-- Claim C1 (code bug): on a tick that acquires the lock and then hits
a missing canvas 2d context, the source returns from inside the `try`
block without resetting `processingLockRef` (there is no `finally`),
so the invocation terminates with the lock still held, contradicting
the claimed (and spec-mandated) release-on-every-exit-path invariant.
Evaluated here at a concrete such tick. -/
theorem tickA_context_unavailable_leaks_lock :
    (tickA cfgA envLockLeak sA0).2 = ExitPath.noCurrentCtx
    ∧ (tickA cfgA envLockLeak sA0).1.processingLock = true := by
  decide

/-! ## C2 — what the lock actually covers -/

/-- Claim C2, counterexample: on a concrete accepted slide change with
sound unmuted, the tick completes normally having already released the
processing lock while the speech playback it just started is still in
progress (`isSpeaking` is still true; the speech `onEnd` callback,
which clears it, runs only later as the separate `speechOnEnd`
transition).  The claim asserts the lock is never released while
speech playback for the slide is in progress. -/
theorem tickA_releases_lock_during_speech :
    (tickA cfgA envAccept sA0).2 = ExitPath.done
    ∧ (tickA cfgA envAccept sA0).1.processingLock = false
    ∧ (tickA cfgA envAccept sA0).1.isSpeaking = true := by
  decide

set_option maxHeartbeats 1600000 in
/-- Claim C2 (amended): the lock is held until the narration branch
settles — on the paths that abort after acceptance but before the
narration result (`noFullCtx`) the lock is still held, and the paths
that do release it after acceptance are exactly normal completion
(narration result incorporated into the explanation log) and the catch
path; but the lock is released immediately after initiating speech
playback, before that playback completes (when unmuted, the final
state still has `isSpeaking = true`). -/
theorem tickA_lock_follows_narration (cfg : AppConfig) (env : TickEnvA)
    (s : AppStateA) :
    ((tickA cfg env s).2 = ExitPath.done →
      (tickA cfg env s).1.processingLock = false
      ∧ (tickA cfg env s).1.isProcessing = false
      ∧ (∃ r, (tickA cfg env s).1.explanations = s.explanations ++ [r]
          ∧ r.text = cleanExplanationText env.narrationText)
      ∧ (s.isMuted = false → (tickA cfg env s).1.isSpeaking = true))
    ∧ ((tickA cfg env s).2 = ExitPath.caught →
      (tickA cfg env s).1.processingLock = false
      ∧ (tickA cfg env s).1.isProcessing = false)
    ∧ (((tickA cfg env s).2 = ExitPath.noCurrentCtx
        ∨ (tickA cfg env s).2 = ExitPath.noFullCtx) →
      (tickA cfg env s).1.processingLock = true) := by
  unfold tickA
  rcases henv : env.pipelineThrows with _ | msg <;>
    generalize evaluateGate cfg.similarityThreshold
      (currentCanvasOf env.videoWidth env.videoHeight env.currentCtxOk env.frame)
      s.previousCanvas = g <;>
    obtain ⟨b, newPrev⟩ := g <;>
    cases b <;>
    cases hm : s.isMuted <;>
    split_ifs <;>
    simp_all

/-- Witness for C2 (amended), applying it on the concrete accepted run. -/
theorem tickA_lock_follows_narration_witness :
    (tickA cfgA envAccept sA0).1.processingLock = false
    ∧ (tickA cfgA envAccept sA0).1.isSpeaking = true := by
  have h := (tickA_lock_follows_narration cfgA envAccept sA0).1 (by decide)
  exact ⟨h.1, h.2.2.2 rfl⟩

/-! ## C5 — minimum-interval gate -/

set_option maxHeartbeats 1600000 in
/-- On every tick, the accepted paths are exactly those that pass the
minimum-interval precondition and they set `lastProcessedTimeRef` to
the tick's wall time; all other paths leave it unchanged. -/
theorem tickA_lastProcessed (cfg : AppConfig) (env : TickEnvA) (s : AppStateA) :
    (isAcceptedPath (tickA cfg env s).2 = true →
      cfg.minProcessingInterval ≤ env.now - s.lastProcessedTime
      ∧ (tickA cfg env s).1.lastProcessedTime = env.now)
    ∧ (isAcceptedPath (tickA cfg env s).2 = false →
      (tickA cfg env s).1.lastProcessedTime = s.lastProcessedTime) := by
  unfold tickA
  rcases henv : env.pipelineThrows with _ | msg <;>
    generalize evaluateGate cfg.similarityThreshold
      (currentCanvasOf env.videoWidth env.videoHeight env.currentCtxOk env.frame)
      s.previousCanvas = g <;>
    obtain ⟨b, newPrev⟩ := g <;>
    cases b <;>
    split_ifs <;>
    simp_all [isAcceptedPath, not_lt, apply_ite]

/-- Consecutive accepted-change times of a run are separated by at
least the minimum interval, measured from the session's current
`lastProcessedTimeRef`. -/
theorem acceptedTimes_spaced (cfg : AppConfig)
    (h0 : 0 ≤ cfg.minProcessingInterval) :
    ∀ (envs : List TickEnvA) (s : AppStateA),
      List.Pairwise (fun a b => cfg.minProcessingInterval ≤ b - a)
        (acceptedTimes cfg envs s)
      ∧ ∀ t ∈ acceptedTimes cfg envs s,
          cfg.minProcessingInterval ≤ t - s.lastProcessedTime := by
  intro envs
  induction envs with
  | nil => intro s; exact ⟨List.Pairwise.nil, by simp [acceptedTimes]⟩
  | cons e es ih =>
    intro s
    by_cases hacc : isAcceptedPath (tickA cfg e s).2 = true
    · have hfacts := (tickA_lastProcessed cfg e s).1 hacc
      have hrec := ih (tickA cfg e s).1
      have heq : acceptedTimes cfg (e :: es) s =
          e.now :: acceptedTimes cfg es (tickA cfg e s).1 := by
        simp [acceptedTimes, hacc]
      rw [heq]
      constructor
      · refine List.Pairwise.cons ?_ hrec.1
        intro t ht
        have h2 := hrec.2 t ht
        rw [hfacts.2] at h2
        exact h2
      · intro t ht
        rcases List.mem_cons.mp ht with rfl | ht2
        · exact hfacts.1
        · have h2 := hrec.2 t ht2
          rw [hfacts.2] at h2
          have h3 := hfacts.1
          omega
    · have hlast := (tickA_lastProcessed cfg e s).2 (by simpa using hacc)
      have hrec := ih (tickA cfg e s).1
      have heq : acceptedTimes cfg (e :: es) s =
          acceptedTimes cfg es (tickA cfg e s).1 := by
        simp [acceptedTimes, hacc]
      rw [heq]
      refine ⟨hrec.1, fun t ht => ?_⟩
      have h2 := hrec.2 t ht
      rw [hlast] at h2
      exact h2

/-- Claim C5: a tick arriving less than the minimum processing interval
after the last accepted change returns at the precondition stage — the
state is exactly unchanged (no lock acquisition, no gate evaluation, no
mutation) — and consequently, over any session run, any two accepted
slide changes are separated by at least the minimum interval. -/
theorem tickA_min_interval_gate (cfg : AppConfig) :
    (∀ env s, env.now - s.lastProcessedTime < cfg.minProcessingInterval →
      (tickA cfg env s).1 = s
      ∧ ((tickA cfg env s).2 = ExitPath.preFail
         ∨ (tickA cfg env s).2 = ExitPath.intervalFail))
    ∧ (0 ≤ cfg.minProcessingInterval →
      ∀ envs s, List.Pairwise (fun a b : Int => cfg.minProcessingInterval ≤ b - a)
        (acceptedTimes cfg envs s)) := by
  constructor
  · intro env s h
    unfold tickA
    split
    all_goals try exact ⟨rfl, Or.inl rfl⟩
    all_goals exact ⟨rfl, Or.inr rfl⟩
  · intro h0 envs s
    exact (acceptedTimes_spaced cfg h0 envs s).1

/-- A tick arriving 100 ms into a fresh session (interval 5000 ms). -/
def envEarly : TickEnvA := { envAccept with now := 100 }

/-- Witness for C5: the early tick leaves the concrete fresh state
untouched, and a concrete one-tick run has properly spaced accepted
times. -/
theorem tickA_min_interval_gate_witness :
    (tickA cfgA envEarly sA0).1 = sA0
    ∧ List.Pairwise (fun a b : Int => cfgA.minProcessingInterval ≤ b - a)
        (acceptedTimes cfgA [envAccept] sA0) :=
  ⟨((tickA_min_interval_gate cfgA).1 envEarly sA0 (by decide)).1,
   (tickA_min_interval_gate cfgA).2 (by decide) [envAccept] sA0⟩

/-! ## C7 — failed narration seals the record with the error text -/

theorem map_eq_self_of_mem {α : Type} (f : α → α) (l : List α)
    (h : ∀ e ∈ l, f e = e) : l.map f = l := by
  induction l with
  | nil => rfl
  | cons a as ih =>
    simp [h a (List.mem_cons_self a as),
      ih (fun e he => h e (List.mem_cons_of_mem a he))]

/-- The callback `handleChunk` touches only the record carrying the streaming id
when that id is fresh for the rest of the log. -/
theorem appendChunkTo_fresh_append (xs : List ExplanationRec)
    (r : ExplanationRec) (c : String) (hfresh : ∀ e ∈ xs, e.id ≠ r.id) :
    appendChunkTo (xs ++ [r]) r.id c = xs ++ [{ r with text := r.text ++ c }] := by
  unfold appendChunkTo
  rw [List.map_append]
  congr 1
  · exact map_eq_self_of_mem _ xs (fun e he => by rw [if_neg (hfresh e he)])
  · simp

/-- Sealing touches only the record carrying the streaming id when that
id is fresh for the rest of the log. -/
theorem sealRecord_fresh_append (xs : List ExplanationRec)
    (r : ExplanationRec) (hfresh : ∀ e ∈ xs, e.id ≠ r.id) :
    sealRecord (xs ++ [r]) r.id =
      xs ++ [{ r with isStreaming := false, isComplete := true }] := by
  unfold sealRecord
  rw [List.map_append]
  congr 1
  · exact map_eq_self_of_mem _ xs (fun e he => by rw [if_neg (hfresh e he)])
  · simp

set_option maxHeartbeats 1600000 in
/-- On a normally completing tick of the streaming App, the final
explanation log is the input log extended with the streaming record,
as built by the chunk deliveries and then sealed, and the streaming id
is cleared. -/
theorem tickStream_done_explanations (cfg : AppConfig) (env : TickEnvB)
    (s : AppStateB) (hpath : (tickStream cfg env s).2 = ExitPath.done) :
    (tickStream cfg env s).1.explanations =
      sealRecord
        (applyChunks
          (s.explanations ++
            [⟨env.newId, "", env.timestamp, s.language, true, false⟩])
          env.newId
          (explainSlideStream s.gemini s.language none env.streamOutcome
            env.timestamp).emitted)
        env.newId
    ∧ (tickStream cfg env s).1.streamingExplanationId = none := by
  unfold tickStream at *
  rcases henv : env.pipelineThrows with _ | msg <;>
    generalize evaluateGate cfg.similarityThreshold
      (currentCanvasOf env.videoWidth env.videoHeight env.currentCtxOk env.frame)
      s.previousCanvas = g at * <;>
    obtain ⟨b, newPrev⟩ := g <;>
    cases b <;>
    split_ifs at * <;>
    simp_all [apply_ite]

/-- Claim C7: when the streaming model request throws before yielding
any chunk, `explainSlideStream` does not propagate the exception — it
returns the localized error string for the active language and emits
that string as the (single, final) chunk — and the coordinating tick
seals the slide's explanation record with exactly that text,
`isComplete = true`, `isStreaming = false`, clearing the streaming id
(given the record id is fresh, as `crypto.randomUUID()` guarantees). -/
theorem tickStream_failure_record (cfg : AppConfig) (env : TickEnvB)
    (s : AppStateB) (err : Option String)
    (hpath : (tickStream cfg env s).2 = ExitPath.done)
    (hout : env.streamOutcome = StreamOutcome.failure [] err)
    (hfresh : ∀ e ∈ s.explanations, e.id ≠ env.newId) :
    (explainSlideStream s.gemini s.language none (StreamOutcome.failure [] err)
        env.timestamp).returned = narrationErrorMessage s.language err
    ∧ (explainSlideStream s.gemini s.language none (StreamOutcome.failure [] err)
        env.timestamp).emitted = [narrationErrorMessage s.language err]
    ∧ (tickStream cfg env s).1.explanations =
        s.explanations ++
          [⟨env.newId, narrationErrorMessage s.language err, env.timestamp,
            s.language, false, true⟩]
    ∧ (tickStream cfg env s).1.streamingExplanationId = none := by
  have hstream : explainSlideStream s.gemini s.language none
      (StreamOutcome.failure [] err) env.timestamp =
      ⟨{ s.gemini with currentSlideNumber := s.gemini.currentSlideNumber + 1 },
       narrationErrorMessage s.language err,
       [narrationErrorMessage s.language err]⟩ := by
    simp [explainSlideStream, streamLoop, jsTruthyNat]
  have hdone := tickStream_done_explanations cfg env s hpath
  rw [hout] at hdone
  rw [hstream] at hdone
  refine ⟨by rw [hstream], by rw [hstream], ?_, hdone.2⟩
  rw [hdone.1]
  have h1 : applyChunks
      (s.explanations ++ [⟨env.newId, "", env.timestamp, s.language, true, false⟩])
      env.newId [narrationErrorMessage s.language err] =
      s.explanations ++
        [⟨env.newId, "" ++ narrationErrorMessage s.language err, env.timestamp,
          s.language, true, false⟩] := by
    show appendChunkTo
      (s.explanations ++ [⟨env.newId, "", env.timestamp, s.language, true, false⟩])
      env.newId (narrationErrorMessage s.language err) = _
    exact appendChunkTo_fresh_append s.explanations _ _ hfresh
  rw [h1, String.empty_append]
  exact sealRecord_fresh_append s.explanations _ hfresh

/-- A fresh session state of the streaming App. -/
def sB0 : AppStateB :=
  { processingLock := false, isProcessing := false, isSpeaking := false,
    isMuted := false, language := Lang.english, lastProcessedTime := 0,
    previousCanvas := emptyCanvas, explanations := [],
    streamingExplanationId := none, error := none, gemini := ⟨[], 1⟩ }

/-- A streaming-App tick whose model request throws before yielding. -/
def envStreamFail : TickEnvB :=
  { now := 10000, videoPresent := true, videoWidth := 640, videoHeight := 360,
    currentCtxOk := true, fullCtxOk := true, frame := [(0, 0, 0, 255)],
    pipelineThrows := none,
    streamOutcome := StreamOutcome.failure [] (some "boom"),
    newId := 7, timestamp := 5 }

/-- Witness for C7, on a concrete failing-stream tick. -/
theorem tickStream_failure_record_witness :
    (tickStream cfgB envStreamFail sB0).1.explanations =
      [⟨7, narrationErrorMessage Lang.english (some "boom"), 5,
        Lang.english, false, true⟩]
    ∧ (tickStream cfgB envStreamFail sB0).1.streamingExplanationId = none := by
  have h := tickStream_failure_record cfgB envStreamFail sB0 (some "boom")
    (by decide) rfl (by decide)
  exact ⟨h.2.2.1, h.2.2.2⟩
